import Mathlib

/-!
Shallow embedding of `src/cli.js` of `awesome-typed-sass-modules`: the
orchestration layer that turns stylesheet paths into written declaration
files.  External collaborators (node-sass `render`, the `DtsCreator`
generation engine, glob expansion, the chokidar change stream) are modelled
at their interface boundary as `Except`-valued functions supplied as
parameters; the orchestration code itself (readSass, createTypings,
createTypingsForFileOnWatch, createTypingsForFiles, the batch/watch branch
of `main`) is translated line by line.

Promises are modelled by totality: a JS promise that always resolves (the
pipeline absorbs failures in its `.catch`) becomes a total Lean function;
a promise that may reject becomes an `Except`.  Side effects (console
output, `handleError` / `handleWarning` callback invocations, disk writes,
generation-engine invocations) are recorded in an explicit event trace, in
program order.  The mutable `warnings` / `errors` counter closures of the
accounting layers are modelled as a left fold of the increment step over
the event trace, mirroring the order in which the callbacks fire.
-/

namespace SassCli

/-- The final object resolved by `creator.create(...)` / `c.writeFile()`:
it carries `outputFilePath` and possibly a `messageList` (which the JS may
leave absent — hence `Option`). -/
structure Artifact where
  outputFilePath : String
  messageList : Option (List String)
deriving DecidableEq, Repr

/-- Value a `readSass` promise can resolve with: the rendered css text
(`result.css.toString()`), or the empty array `[]` resolved by the
suppression branch. -/
inductive RenderValue
  | css (text : String)
  | emptyList
deriving DecidableEq, Repr

/-- External collaborators of one run, at their interface boundary.
`sassRender p` is the outcome `sass.render` delivers for path `p` (error
`err` or rendered text); `create` and `writeFile` are the generation
engine's two operations, each of which may reject. -/
structure Collaborators where
  sassRender : String → Except String String
  create : String → RenderValue → Bool → Except String Artifact
  writeFile : Artifact → Except String Artifact

/-- Chalk red: ANSI open code 31, close code 39. -/
def chalkRed (s : String) : String := "\x1b[31m" ++ s ++ "\x1b[39m"

/-- Chalk yellow: ANSI open code 33, close code 39. -/
def chalkYellow (s : String) : String := "\x1b[33m" ++ s ++ "\x1b[39m"

/-- Chalk green: ANSI open code 32, close code 39. -/
def chalkGreen (s : String) : String := "\x1b[32m" ++ s ++ "\x1b[39m"

/-- The message `createTypings` hands to `handleError`:
`` `${chalk.red(`ERROR: ${pathName}`)}\n${reason}` ``. -/
def mkErrorMessage (pathName reason : String) : String :=
  chalkRed ("ERROR: " ++ pathName) ++ "\n" ++ reason

/-- The message `createTypings` hands to `handleWarning`:
`` `${chalk.yellow(`WARNING: ${pathName}`)}\n${message}` ``. -/
def mkWarningMessage (pathName message : String) : String :=
  chalkYellow ("WARNING: " ++ pathName) ++ "\n" ++ message

/-- The verbose info line `` `Created ${chalk.green(c.outputFilePath)}` ``. -/
def mkCreatedLine (outputFilePath : String) : String :=
  "Created " ++ chalkGreen outputFilePath

/-- Batch summary `` `Completed with ${warnings} warnings and ${errors} errors.` ``. -/
def mkBatchSummary (warnings errors : Nat) : String :=
  "Completed with " ++ toString warnings ++ " warnings and "
    ++ toString errors ++ " errors."

/-- Watch summary `` `${pathName}: ${warnings} warnings, ${errors} errors` ``. -/
def mkWatchSummary (pathName : String) (warnings errors : Nat) : String :=
  pathName ++ ": " ++ toString warnings ++ " warnings, "
    ++ toString errors ++ " errors"

/-- The batch-mode file count line `` `Creating typings for ${n} files\n` ``. -/
def mkCountLine (n : Nat) : String :=
  "Creating typings for " ++ toString n ++ " files\n"

/-- The zero-file notice printed when glob expansion finds nothing. -/
def zeroFilesNotice : String := "Creating typings for 0 files"

/-- `readSass(pathName, relativeTo)`: wraps the `sass.render` callback.
`result` is what the collaborator delivered for this path.  JS truthiness
of the `relativeTo` string: `undefined` is `none`, and the empty string is
falsy.  Faithful to:
`if (err && (relativeTo && relativeTo !== '/')) return resolve([]);
 else if (err && (!relativeTo || relativeTo === '/')) return reject(err);
 return resolve(result.css.toString());`. -/
def readSass (result : Except String String) (relativeTo : Option String) :
    Except String RenderValue :=
  match result with
  | .error err =>
    match relativeTo with
    | some s => if s ≠ "" ∧ s ≠ "/" then .ok .emptyList else .error err
    | none => .error err
  | .ok text => .ok (.css text)

/-- One observable step of a pipeline invocation, in program order. -/
inductive Event
  | createCall (cache : Bool)
  | write (outputFilePath : String)
  | infoLine (message : String)
  | errorCall (message : String)
  | warningCall (message : String)
deriving DecidableEq, Repr

def Event.isErrorCall : Event → Bool
  | .errorCall _ => true
  | _ => false

def Event.isWarningCall : Event → Bool
  | .warningCall _ => true
  | _ => false

def Event.isWrite : Event → Bool
  | .write _ => true
  | _ => false

def Event.isInfoLine : Event → Bool
  | .infoLine _ => true
  | _ => false

def Event.errorMessageOf : Event → Option String
  | .errorCall m => some m
  | _ => none

def Event.warningMessageOf : Event → Option String
  | .warningCall m => some m
  | _ => none

def Event.infoMessageOf : Event → Option String
  | .infoLine m => some m
  | _ => none

/-- `createTypings(pathName, creator, cache, handleError, handleWarning,
verbose)`: the Typing Pipeline.  Returns the value the promise resolves to
(`some` artifact, or `none` out of the `.catch` handler) together with the
trace of observable steps.  `readSass` is invoked with no `relativeTo`
(strict form).  The `.catch` turns any step's rejection into a single
`handleError` call and a resolution to no value. -/
def createTypings (co : Collaborators) (pathName : String)
    (cache verbose : Bool) : Option Artifact × List Event :=
  match readSass (co.sassRender pathName) none with
  | .error reason => (none, [.errorCall (mkErrorMessage pathName reason)])
  | .ok content =>
    match co.create pathName content cache with
    | .error reason =>
      (none, [.createCall cache, .errorCall (mkErrorMessage pathName reason)])
    | .ok draft =>
      match co.writeFile draft with
      | .error reason =>
        (none, [.createCall cache, .errorCall (mkErrorMessage pathName reason)])
      | .ok c =>
        (some c,
          [.createCall cache, .write c.outputFilePath]
            ++ (if verbose then [.infoLine (mkCreatedLine c.outputFilePath)] else [])
            ++ (match c.messageList with
                | none => []
                | some msgs =>
                  msgs.map (fun m => .warningCall (mkWarningMessage pathName m))))

/-- First failing step of a pipeline invocation, mirroring the
short-circuiting `.then` chain: the reason of the render, create or
write rejection, or `none` when every step succeeds. -/
def pipelineFailure (co : Collaborators) (pathName : String) (cache : Bool) :
    Option String :=
  match readSass (co.sassRender pathName) none with
  | .error reason => some reason
  | .ok content =>
    match co.create pathName content cache with
    | .error reason => some reason
    | .ok draft =>
      match co.writeFile draft with
      | .error reason => some reason
      | .ok _ => none

/-- One line of console output, tagged by channel
(`console.error` / `console.warn` / `console.info`). -/
inductive ConsoleLine
  | error (s : String)
  | warn (s : String)
  | info (s : String)
deriving DecidableEq, Repr

/-- Console output produced while one event is handled: the accounting
layers' `handleError` / `handleWarning` print the message on the
error/warn channel before incrementing; `createTypings` prints its own
verbose line on the info channel. -/
def consoleOfEvent : Event → List ConsoleLine
  | .infoLine m => [.info m]
  | .errorCall m => [.error m]
  | .warningCall m => [.warn m]
  | _ => []

def consoleOfTrace (tr : List Event) : List ConsoleLine :=
  tr.flatMap consoleOfEvent

/-- One counter update: `handleWarning` does `warnings += 1`,
`handleError` does `errors += 1`, nothing else touches the counters. -/
def bumpCounters : Nat × Nat → Event → Nat × Nat
  | (w, e), .errorCall _ => (w, e + 1)
  | (w, e), .warningCall _ => (w + 1, e)
  | we, _ => we

/-- The counter pair `(warnings, errors)` after the callbacks of a trace
have fired, starting from the fresh `let warnings = 0; let errors = 0`. -/
def runCounters (tr : List Event) : Nat × Nat :=
  tr.foldl bumpCounters (0, 0)

/-- `createTypingsForFileOnWatch(creator, cache, verbose)` applied to one
fired event's `pathName`: fresh counters, one pipeline run, then
`onComplete` prints the per-event summary when `warnings + errors > 0`.
Returns the console transcript of this firing and the pipeline trace. -/
def createTypingsForFileOnWatch (co : Collaborators) (cache verbose : Bool)
    (pathName : String) : List ConsoleLine × List Event :=
  let r := createTypings co pathName cache verbose
  let wc := runCounters r.2
  (consoleOfTrace r.2
      ++ (if wc.1 + wc.2 > 0
          then [ConsoleLine.info (mkWatchSummary pathName wc.1 wc.2)]
          else []),
    r.2)

/-- A run of watch mode over a sequence of fired add/change events, each
event's processing settling before the next fires.  Every firing invokes
the registered handler afresh. -/
def watchRun (co : Collaborators) (cache verbose : Bool)
    (events : List String) : List ConsoleLine × List Event :=
  ((events.map (fun p => (createTypingsForFileOnWatch co cache verbose p).1)).flatten,
   (events.map (fun p => (createTypingsForFileOnWatch co cache verbose p).2)).flatten)

/-- Concatenated trace of the per-file pipeline invocations dispatched by
`Promise.all(pathNames.map(...))`. -/
def batchTrace (co : Collaborators) (cache verbose : Bool)
    (pathNames : List String) : List Event :=
  (pathNames.map (fun p => (createTypings co p cache verbose).2)).flatten

/-- `createTypingsForFiles(creator, cache, verbose)(pathNames)`: shared
counters over all per-file pipelines, `onComplete` after `Promise.all`
settles prints the batch summary when `warnings + errors > 0`.  Returns
the console transcript and the combined trace. -/
def createTypingsForFiles (co : Collaborators) (cache verbose : Bool)
    (pathNames : List String) : List ConsoleLine × List Event :=
  let tr := batchTrace co cache verbose pathNames
  let wc := runCounters tr
  (consoleOfTrace tr
      ++ (if wc.1 + wc.2 > 0
          then [ConsoleLine.info (mkBatchSummary wc.1 wc.2)]
          else []),
    tr)

/-- Outcome of the glob expansion delivered to the callback in `main`:
`failed err`, or `found pathNames` where the JS defensively allows the
array to be absent (`!pathNames`). -/
inductive GlobOutcome
  | failed (err : String)
  | found (pathNames : Option (List String))

/-- The glob callback of `main`'s batch branch:
`if (err) { console.error(err); return; }
 else if (!pathNames || !pathNames.length) { console.info('Creating typings for 0 files'); return; }
 console.info(...); createTypingsForFiles(creator, cache, argv.v)(pathNames);`.
Returns the console transcript and the path list Batch Accounting was
invoked with (`none` when it was never invoked). -/
def globCallback (co : Collaborators) (cache verbose : Bool)
    (out : GlobOutcome) : List ConsoleLine × Option (List String) :=
  match out with
  | .failed err => ([.error err], none)
  | .found none => ([.info zeroFilesNotice], none)
  | .found (some ps) =>
    if ps.length = 0 then ([.info zeroFilesNotice], none)
    else (ConsoleLine.info (mkCountLine ps.length)
            :: (createTypingsForFiles co cache verbose ps).1,
          some ps)

/-- Event trace of the batch branch: empty when no pipelines run. -/
def globCallbackTrace (co : Collaborators) (cache verbose : Bool)
    (out : GlobOutcome) : List Event :=
  match out with
  | .failed _ => []
  | .found none => []
  | .found (some ps) =>
    if ps.length = 0 then [] else batchTrace co cache verbose ps

/-- The Mode Selector's pipeline-facing behaviour: `main` computes
`const cache = !!argv.w` once and then either runs the glob callback
(batch) or attaches the watch handler (watch).  Returns the full event
trace of the run. -/
def mainRun (co : Collaborators) (watch verbose : Bool)
    (globOut : GlobOutcome) (watchEvents : List String) : List Event :=
  let cache := watch
  if watch then (watchRun co cache verbose watchEvents).2
  else globCallbackTrace co cache verbose globOut

/-- Last character of a string, used to separate the summary-line formats
from every other console line the orchestration layer can print. -/
def lastChar (s : String) : Option Char := s.data.getLast?

/-- Concrete collaborators used to exercise the orchestration layer on
closed inputs: path `"A"` renders and generates with two warnings, `"B"`
fails to render, `"C"` fails in the generation engine's `create`, `"W"`
fails in `writeFile`, `"N"` succeeds with an absent `messageList`, and any
other path succeeds with an empty warning list. -/
def coMixed : Collaborators where
  sassRender := fun p => if p = "B" then .error "boom" else .ok ("css of " ++ p)
  create := fun p _ _ =>
    if p = "C" then .error "create failed"
    else .ok { outputFilePath := p ++ ".d.ts",
               messageList :=
                 if p = "A" then some ["w1", "w2"]
                 else if p = "N" then none
                 else some [] }
  writeFile := fun a =>
    if a.outputFilePath = "W.d.ts" then .error "write failed" else .ok a

/-- A console line of the batch summary form. -/
def IsBatchSummaryLine (l : ConsoleLine) : Prop :=
  ∃ w e, l = ConsoleLine.info (mkBatchSummary w e)

/-- A console line of the watch per-event summary form. -/
def IsWatchSummaryLine (l : ConsoleLine) : Prop :=
  ∃ p w e, l = ConsoleLine.info (mkWatchSummary p w e)

theorem lastChar_append (a b : String) (h : b.data ≠ []) :
    lastChar (a ++ b) = lastChar b := by
  unfold lastChar
  rw [String.data_append]
  exact List.getLast?_append_of_ne_nil a.data h

theorem lastChar_mkBatchSummary (w e : Nat) :
    lastChar (mkBatchSummary w e) = some '.' := by
  unfold mkBatchSummary
  rw [lastChar_append _ " errors." (by decide)]
  decide

theorem lastChar_mkWatchSummary (p : String) (w e : Nat) :
    lastChar (mkWatchSummary p w e) = some 's' := by
  unfold mkWatchSummary
  rw [lastChar_append _ " errors" (by decide)]
  decide

theorem lastChar_mkCreatedLine (o : String) :
    lastChar (mkCreatedLine o) = some 'm' := by
  unfold mkCreatedLine chalkGreen
  rw [lastChar_append "Created " _ (by
    rw [String.data_append]
    intro hc
    exact absurd (List.append_eq_nil.mp hc).2 (by decide))]
  rw [lastChar_append _ "\x1b[39m" (by decide)]
  decide

theorem mkCreatedLine_ne_mkBatchSummary (o : String) (w e : Nat) :
    mkCreatedLine o ≠ mkBatchSummary w e := by
  intro h
  have hl := lastChar_mkCreatedLine o
  rw [h, lastChar_mkBatchSummary] at hl
  exact absurd (Option.some.inj hl) (by decide)

theorem mkCreatedLine_ne_mkWatchSummary (o p : String) (w e : Nat) :
    mkCreatedLine o ≠ mkWatchSummary p w e := by
  intro h
  have hl := lastChar_mkCreatedLine o
  rw [h, lastChar_mkWatchSummary] at hl
  exact absurd (Option.some.inj hl) (by decide)

theorem createTypings_render_error (co : Collaborators) (pathName : String)
    (cache verbose : Bool) (r : String)
    (hs : co.sassRender pathName = .error r) :
    createTypings co pathName cache verbose =
      (none, [.errorCall (mkErrorMessage pathName r)]) := by
  simp [createTypings, readSass, hs]

theorem createTypings_create_error (co : Collaborators) (pathName : String)
    (cache verbose : Bool) (text r : String)
    (hs : co.sassRender pathName = .ok text)
    (hc : co.create pathName (.css text) cache = .error r) :
    createTypings co pathName cache verbose =
      (none, [.createCall cache, .errorCall (mkErrorMessage pathName r)]) := by
  simp [createTypings, readSass, hs, hc]

theorem createTypings_write_error (co : Collaborators) (pathName : String)
    (cache verbose : Bool) (text r : String) (draft : Artifact)
    (hs : co.sassRender pathName = .ok text)
    (hc : co.create pathName (.css text) cache = .ok draft)
    (hw : co.writeFile draft = .error r) :
    createTypings co pathName cache verbose =
      (none, [.createCall cache, .errorCall (mkErrorMessage pathName r)]) := by
  simp [createTypings, readSass, hs, hc, hw]

theorem createTypings_success (co : Collaborators) (pathName : String)
    (cache verbose : Bool) (text : String) (draft c : Artifact)
    (hs : co.sassRender pathName = .ok text)
    (hc : co.create pathName (.css text) cache = .ok draft)
    (hw : co.writeFile draft = .ok c) :
    createTypings co pathName cache verbose =
      (some c,
        [.createCall cache, .write c.outputFilePath]
          ++ (if verbose then [.infoLine (mkCreatedLine c.outputFilePath)] else [])
          ++ (match c.messageList with
              | none => []
              | some msgs =>
                msgs.map (fun m => .warningCall (mkWarningMessage pathName m)))) := by
  simp [createTypings, readSass, hs, hc, hw]

/-- Every event of one pipeline invocation's trace is the create call with
this invocation's cache flag, a write, the verbose info line, a
`handleError` call, or a `handleWarning` call — with the documented message
formats naming this invocation's source path. -/
theorem createTypings_trace_shape (co : Collaborators) (pathName : String)
    (cache verbose : Bool) :
    ∀ ev ∈ (createTypings co pathName cache verbose).2,
      ev = Event.createCall cache ∨
      (∃ o, ev = Event.write o) ∨
      (∃ o, ev = Event.infoLine (mkCreatedLine o)) ∨
      (∃ r, ev = Event.errorCall (mkErrorMessage pathName r)) ∨
      (∃ m, ev = Event.warningCall (mkWarningMessage pathName m)) := by
  intro ev hl
  cases hs : co.sassRender pathName with
  | error r =>
    rw [createTypings_render_error co pathName cache verbose r hs] at hl
    simp at hl
    exact Or.inr (Or.inr (Or.inr (Or.inl ⟨r, hl⟩)))
  | ok text =>
    cases hc : co.create pathName (.css text) cache with
    | error r =>
      rw [createTypings_create_error co pathName cache verbose text r hs hc] at hl
      simp at hl
      rcases hl with rfl | rfl
      · exact Or.inl rfl
      · exact Or.inr (Or.inr (Or.inr (Or.inl ⟨r, rfl⟩)))
    | ok draft =>
      cases hw : co.writeFile draft with
      | error r =>
        rw [createTypings_write_error co pathName cache verbose text r draft hs hc hw] at hl
        simp at hl
        rcases hl with rfl | rfl
        · exact Or.inl rfl
        · exact Or.inr (Or.inr (Or.inr (Or.inl ⟨r, rfl⟩)))
      | ok c =>
        rw [createTypings_success co pathName cache verbose text draft c hs hc hw] at hl
        simp at hl
        rcases hl with rfl | rfl | ⟨hv, rfl⟩ | hl
        · exact Or.inl rfl
        · exact Or.inr (Or.inl ⟨c.outputFilePath, rfl⟩)
        · exact Or.inr (Or.inr (Or.inl ⟨c.outputFilePath, rfl⟩))
        · cases hm : c.messageList with
          | none => rw [hm] at hl; simp at hl
          | some msgs =>
            rw [hm] at hl
            simp at hl
            rcases hl with ⟨m, hmem, rfl⟩
            exact Or.inr (Or.inr (Or.inr (Or.inr ⟨m, rfl⟩)))

/-- Every console line printed during one pipeline invocation is a
`handleError` print, a `handleWarning` print, or the verbose info line. -/
theorem consoleOfTrace_createTypings_shape (co : Collaborators)
    (pathName : String) (cache verbose : Bool) :
    ∀ l ∈ consoleOfTrace (createTypings co pathName cache verbose).2,
      (∃ r, l = ConsoleLine.error (mkErrorMessage pathName r)) ∨
      (∃ m, l = ConsoleLine.warn (mkWarningMessage pathName m)) ∨
      (∃ o, l = ConsoleLine.info (mkCreatedLine o)) := by
  intro l hl
  rcases List.mem_flatMap.mp hl with ⟨ev, hev, hconsole⟩
  rcases createTypings_trace_shape co pathName cache verbose ev hev with
    rfl | ⟨o, rfl⟩ | ⟨o, rfl⟩ | ⟨r, rfl⟩ | ⟨m, rfl⟩
  · simp [consoleOfEvent] at hconsole
  · simp [consoleOfEvent] at hconsole
  · simp [consoleOfEvent] at hconsole
    exact Or.inr (Or.inr ⟨o, hconsole⟩)
  · simp [consoleOfEvent] at hconsole
    exact Or.inl ⟨r, hconsole⟩
  · simp [consoleOfEvent] at hconsole
    exact Or.inr (Or.inl ⟨m, hconsole⟩)

theorem foldl_bumpCounters (tr : List Event) (w e : Nat) :
    tr.foldl bumpCounters (w, e) =
      (w + tr.countP Event.isWarningCall, e + tr.countP Event.isErrorCall) := by
  induction tr generalizing w e with
  | nil => simp
  | cons ev rest ih =>
    cases ev <;>
      simp [bumpCounters, Event.isWarningCall, Event.isErrorCall,
        List.countP_cons, ih] <;> omega

/-- The counter pair a trace's callbacks leave behind is exactly the count
of `handleWarning` calls paired with the count of `handleError` calls. -/
theorem runCounters_eq_counts (tr : List Event) :
    runCounters tr = (tr.countP Event.isWarningCall, tr.countP Event.isErrorCall) := by
  simpa using foldl_bumpCounters tr 0 0

theorem runCounters_append (a b : List Event) :
    runCounters (a ++ b) =
      ((runCounters a).1 + (runCounters b).1,
       (runCounters a).2 + (runCounters b).2) := by
  simp [runCounters_eq_counts, List.countP_append]

/-- C1: if any step of the Typing Pipeline (render, generate, persist)
fails, `onError` is invoked exactly once — the trace's `handleError`
messages are exactly the one two-line message whose first line is the red
error title naming the source path and whose second line is the failure
detail.  The invocation resolves to no value (`createTypings` is a total
function into `Option Artifact`; there is no rejection channel), no
artifact is produced, and nothing is written.  The last conjunct shows a
caller running many invocations is never short-circuited by this failure:
a batch containing the failing path still carries every other path's full
trace on both sides of it. -/
theorem createTypings_failure_absorbed (co : Collaborators)
    (pathName : String) (cache verbose : Bool) (reason : String)
    (h : pipelineFailure co pathName cache = some reason) :
    (createTypings co pathName cache verbose).1 = none ∧
    List.filterMap Event.errorMessageOf (createTypings co pathName cache verbose).2
      = [chalkRed ("ERROR: " ++ pathName) ++ "\n" ++ reason] ∧
    (createTypings co pathName cache verbose).2.countP Event.isWrite = 0 ∧
    ∀ pre post,
      batchTrace co cache verbose (pre ++ pathName :: post) =
        batchTrace co cache verbose pre
          ++ (createTypings co pathName cache verbose).2
          ++ batchTrace co cache verbose post := by
  have hbatch : ∀ pre post,
      batchTrace co cache verbose (pre ++ pathName :: post) =
        batchTrace co cache verbose pre
          ++ (createTypings co pathName cache verbose).2
          ++ batchTrace co cache verbose post := by
    intro pre post
    simp [batchTrace]
  cases hs : co.sassRender pathName with
  | error r =>
    have hr : r = reason := by
      simp [pipelineFailure, readSass, hs] at h
      exact h
    subst hr
    have heq := createTypings_render_error co pathName cache verbose r hs
    refine ⟨?_, ?_, ?_, hbatch⟩
    · rw [heq]
    · rw [heq]; simp [Event.errorMessageOf, mkErrorMessage]
    · rw [heq]; simp [Event.isWrite]
  | ok text =>
    cases hc : co.create pathName (.css text) cache with
    | error r =>
      have hr : r = reason := by
        simp [pipelineFailure, readSass, hs, hc] at h
        exact h
      subst hr
      have heq := createTypings_create_error co pathName cache verbose text r hs hc
      refine ⟨?_, ?_, ?_, hbatch⟩
      · rw [heq]
      · rw [heq]; simp [Event.errorMessageOf, mkErrorMessage]
      · rw [heq]; simp [Event.isWrite]
    | ok draft =>
      cases hw : co.writeFile draft with
      | error r =>
        have hr : r = reason := by
          simp [pipelineFailure, readSass, hs, hc, hw] at h
          exact h
        subst hr
        have heq := createTypings_write_error co pathName cache verbose text r draft hs hc hw
        refine ⟨?_, ?_, ?_, hbatch⟩
        · rw [heq]
        · rw [heq]; simp [Event.errorMessageOf, mkErrorMessage]
        · rw [heq]; simp [Event.isWrite]
      | ok c =>
        exfalso
        simp [pipelineFailure, readSass, hs, hc, hw] at h

/-- C1 witness: at the concrete failing render of path `"B"` under
`coMixed`, the hypothesis and every binder-free part of the conclusion are
discharged, the no-short-circuit conjunct instantiated at the batch
`["A", "B", "N"]`. -/
theorem createTypings_failure_absorbed_witness :
    pipelineFailure coMixed "B" false = some "boom" ∧
    (createTypings coMixed "B" false false).1 = none ∧
    List.filterMap Event.errorMessageOf (createTypings coMixed "B" false false).2
      = [chalkRed ("ERROR: " ++ "B") ++ "\n" ++ "boom"] ∧
    (createTypings coMixed "B" false false).2.countP Event.isWrite = 0 ∧
    batchTrace coMixed false false (["A"] ++ "B" :: ["N"]) =
      batchTrace coMixed false false ["A"]
        ++ (createTypings coMixed "B" false false).2
        ++ batchTrace coMixed false false ["N"] := by
  have h : pipelineFailure coMixed "B" false = some "boom" := by decide
  have hc := createTypings_failure_absorbed coMixed "B" false false "boom" h
  exact ⟨h, hc.1, hc.2.1, hc.2.2.1, hc.2.2.2 ["A"] ["N"]⟩

/-- C4: when the render collaborator fails, `readSass` rejects with the
collaborator's error detail (the pipeline's "render error" reason) exactly
when the `relativeTo` strict indicator is unset or is the root sentinel
`"/"`; for any other supplied (non-empty, non-root) value the failure is
suppressed and the RenderResult resolves to the empty sequence. -/
theorem readSass_failure_policy (err : String) (relativeTo : Option String) :
    ((relativeTo = none ∨ relativeTo = some "/") →
      readSass (Except.error err) relativeTo = Except.error err) ∧
    (∀ s, relativeTo = some s → s ≠ "" → s ≠ "/" →
      readSass (Except.error err) relativeTo = Except.ok RenderValue.emptyList) := by
  constructor
  · rintro (rfl | rfl) <;> simp [readSass]
  · rintro s rfl hne hroot
    simp [readSass, hne, hroot]

/-- C4 witness: concrete render failures under an unset, a root, and a
non-root `relativeTo`. -/
theorem readSass_failure_policy_witness :
    readSass (Except.error "boom") none = Except.error "boom" ∧
    readSass (Except.error "boom") (some "/") = Except.error "boom" ∧
    readSass (Except.error "boom") (some "sub") = Except.ok RenderValue.emptyList :=
  ⟨(readSass_failure_policy "boom" none).1 (Or.inl rfl),
   (readSass_failure_policy "boom" (some "/")).1 (Or.inr rfl),
   (readSass_failure_policy "boom" (some "sub")).2 "sub" rfl (by decide) (by decide)⟩

/-- C6: when render, generation and persist all succeed and the artifact
carries zero warnings, the pipeline returns the artifact (with its output
file path), fires neither `onError` nor `onWarning`, performs exactly one
write, and prints the `Created ...` info line exactly when `verbose` is
set. -/
theorem createTypings_success_clean (co : Collaborators) (pathName : String)
    (cache verbose : Bool) (text : String) (draft c : Artifact)
    (hs : co.sassRender pathName = .ok text)
    (hc : co.create pathName (.css text) cache = .ok draft)
    (hw : co.writeFile draft = .ok c)
    (hm : c.messageList = none ∨ c.messageList = some []) :
    (createTypings co pathName cache verbose).1 = some c ∧
    (createTypings co pathName cache verbose).2.countP Event.isErrorCall = 0 ∧
    (createTypings co pathName cache verbose).2.countP Event.isWarningCall = 0 ∧
    (createTypings co pathName cache verbose).2.countP Event.isWrite = 1 ∧
    (createTypings co pathName cache verbose).2.filterMap Event.infoMessageOf
      = (if verbose then [mkCreatedLine c.outputFilePath] else []) := by
  have heq := createTypings_success co pathName cache verbose text draft c hs hc hw
  rw [heq]
  rcases hm with hm | hm <;> rw [hm] <;> cases verbose <;>
    simp [Event.isErrorCall, Event.isWarningCall, Event.isWrite, Event.infoMessageOf]

/-- C6 witness: the clean path `"D"` under `coMixed`, checked for both
settings of `verbose` via the `verbose = true` instance. -/
theorem createTypings_success_clean_witness :
    (createTypings coMixed "D" false true).1
        = some { outputFilePath := "D.d.ts", messageList := some [] } ∧
    (createTypings coMixed "D" false true).2.countP Event.isErrorCall = 0 ∧
    (createTypings coMixed "D" false true).2.countP Event.isWarningCall = 0 ∧
    (createTypings coMixed "D" false true).2.countP Event.isWrite = 1 ∧
    (createTypings coMixed "D" false true).2.filterMap Event.infoMessageOf
      = [mkCreatedLine "D.d.ts"] := by
  have h := createTypings_success_clean coMixed "D" false true ("css of D")
    { outputFilePath := "D.d.ts", messageList := some [] }
    { outputFilePath := "D.d.ts", messageList := some [] }
    rfl rfl rfl (Or.inr rfl)
  simpa using h

theorem filterMap_some_comp {α β : Type} (f : α → β) (l : List α) :
    l.filterMap (fun x => some (f x)) = l.map f := by
  induction l with
  | nil => rfl
  | cons a l ih => simp [List.filterMap_cons, ih]

/-- C7: on a successful invocation whose artifact carries warning list
`msgs`, `onWarning` fires once per warning in list order, each time with
the two-line message: the yellow warning title naming the source path,
then the warning text. -/
theorem createTypings_warning_order (co : Collaborators) (pathName : String)
    (cache verbose : Bool) (text : String) (draft c : Artifact)
    (msgs : List String)
    (hs : co.sassRender pathName = .ok text)
    (hc : co.create pathName (.css text) cache = .ok draft)
    (hw : co.writeFile draft = .ok c)
    (hm : c.messageList = some msgs) :
    (createTypings co pathName cache verbose).1 = some c ∧
    (createTypings co pathName cache verbose).2.filterMap Event.warningMessageOf
      = msgs.map (fun m => chalkYellow ("WARNING: " ++ pathName) ++ "\n" ++ m) := by
  have heq := createTypings_success co pathName cache verbose text draft c hs hc hw
  rw [heq, hm]
  cases verbose <;>
    simp [Event.warningMessageOf, mkWarningMessage, List.filterMap_map,
      Function.comp_def, filterMap_some_comp]

/-- C7 witness: path `"A"` under `coMixed` carries the two warnings
`["w1", "w2"]`, reported in order. -/
theorem createTypings_warning_order_witness :
    (createTypings coMixed "A" false false).1
        = some { outputFilePath := "A.d.ts", messageList := some ["w1", "w2"] } ∧
    (createTypings coMixed "A" false false).2.filterMap Event.warningMessageOf
      = ["w1", "w2"].map (fun m => chalkYellow ("WARNING: " ++ "A") ++ "\n" ++ m) :=
  createTypings_warning_order coMixed "A" false false ("css of A")
    { outputFilePath := "A.d.ts", messageList := some ["w1", "w2"] }
    { outputFilePath := "A.d.ts", messageList := some ["w1", "w2"] }
    ["w1", "w2"] rfl rfl rfl rfl

/-- C10: when the persisted artifact has no `messageList` at all (the
field is absent, not an empty list), the invocation still succeeds and
returns the artifact, `onWarning` fires zero times and `onError` never
fires: the `if (c.messageList)` guard skips the absent field instead of
failing on it. -/
theorem createTypings_absent_messageList (co : Collaborators)
    (pathName : String) (cache verbose : Bool) (text : String)
    (draft c : Artifact)
    (hs : co.sassRender pathName = .ok text)
    (hc : co.create pathName (.css text) cache = .ok draft)
    (hw : co.writeFile draft = .ok c)
    (hm : c.messageList = none) :
    (createTypings co pathName cache verbose).1 = some c ∧
    (createTypings co pathName cache verbose).2.countP Event.isWarningCall = 0 ∧
    (createTypings co pathName cache verbose).2.countP Event.isErrorCall = 0 := by
  have heq := createTypings_success co pathName cache verbose text draft c hs hc hw
  rw [heq, hm]
  cases verbose <;> simp [Event.isWarningCall, Event.isErrorCall]

/-- C10 witness: path `"N"` under `coMixed` persists an artifact whose
`messageList` is absent. -/
theorem createTypings_absent_messageList_witness :
    (createTypings coMixed "N" false true).1
        = some { outputFilePath := "N.d.ts", messageList := none } ∧
    (createTypings coMixed "N" false true).2.countP Event.isWarningCall = 0 ∧
    (createTypings coMixed "N" false true).2.countP Event.isErrorCall = 0 :=
  createTypings_absent_messageList coMixed "N" false true ("css of N")
    { outputFilePath := "N.d.ts", messageList := none }
    { outputFilePath := "N.d.ts", messageList := none }
    rfl rfl rfl rfl

theorem consoleOfTrace_no_watch_summary (co : Collaborators)
    (pathName : String) (cache verbose : Bool) :
    ∀ l ∈ consoleOfTrace (createTypings co pathName cache verbose).2,
      ¬ IsWatchSummaryLine l := by
  intro l hl hsum
  rcases hsum with ⟨q, w, e, rfl⟩
  rcases consoleOfTrace_createTypings_shape co pathName cache verbose _ hl with
    ⟨r, h⟩ | ⟨m, h⟩ | ⟨o, h⟩
  · exact ConsoleLine.noConfusion h
  · exact ConsoleLine.noConfusion h
  · exact mkCreatedLine_ne_mkWatchSummary o q w e (ConsoleLine.info.inj h).symm

theorem consoleOfTrace_no_batch_summary (co : Collaborators)
    (pathName : String) (cache verbose : Bool) :
    ∀ l ∈ consoleOfTrace (createTypings co pathName cache verbose).2,
      ¬ IsBatchSummaryLine l := by
  intro l hl hsum
  rcases hsum with ⟨w, e, rfl⟩
  rcases consoleOfTrace_createTypings_shape co pathName cache verbose _ hl with
    ⟨r, h⟩ | ⟨m, h⟩ | ⟨o, h⟩
  · exact ConsoleLine.noConfusion h
  · exact ConsoleLine.noConfusion h
  · exact mkCreatedLine_ne_mkBatchSummary o w e (ConsoleLine.info.inj h).symm

/-- C2: each firing of the watch handler opens with fresh zero counters,
so an event's output is unaffected by any earlier events (first conjunct),
and in the claim's scenario — file A's run producing 2 warnings, 0 errors,
then file B's run producing 0 warnings, 1 error — the transcripts carry
exactly the per-event summaries `A: 2 warnings, 0 errors` then
`B: 0 warnings, 1 errors`, never cumulative counts; the remaining lines of
each event's transcript are never of summary form. -/
theorem watch_counters_reset (co : Collaborators) (cache verbose : Bool)
    (pA pB : String)
    (hA : runCounters (createTypings co pA cache verbose).2 = (2, 0))
    (hB : runCounters (createTypings co pB cache verbose).2 = (0, 1)) :
    (∀ pre p, (watchRun co cache verbose (pre ++ [p])).1 =
        (watchRun co cache verbose pre).1
          ++ (createTypingsForFileOnWatch co cache verbose p).1) ∧
    (watchRun co cache verbose [pA, pB]).1 =
      consoleOfTrace (createTypings co pA cache verbose).2
        ++ [ConsoleLine.info (mkWatchSummary pA 2 0)]
        ++ (consoleOfTrace (createTypings co pB cache verbose).2
            ++ [ConsoleLine.info (mkWatchSummary pB 0 1)]) ∧
    (∀ l ∈ consoleOfTrace (createTypings co pA cache verbose).2,
      ¬ IsWatchSummaryLine l) ∧
    (∀ l ∈ consoleOfTrace (createTypings co pB cache verbose).2,
      ¬ IsWatchSummaryLine l) := by
  refine ⟨?_, ?_, consoleOfTrace_no_watch_summary co pA cache verbose,
    consoleOfTrace_no_watch_summary co pB cache verbose⟩
  · intro pre p
    simp [watchRun]
  · simp [watchRun, createTypingsForFileOnWatch, hA, hB]

/-- C2 witness: under `coMixed`, event `"A"` yields 2 warnings and 0
errors, event `"B"` yields 0 warnings and 1 error, and the transcript of
the two firings carries exactly the two per-event summary lines, whose
text is the claim's. -/
theorem watch_counters_reset_witness :
    runCounters (createTypings coMixed "A" false false).2 = (2, 0) ∧
    runCounters (createTypings coMixed "B" false false).2 = (0, 1) ∧
    mkWatchSummary "A" 2 0 = "A: 2 warnings, 0 errors" ∧
    mkWatchSummary "B" 0 1 = "B: 0 warnings, 1 errors" ∧
    (watchRun coMixed false false ["A", "B"]).1 =
      consoleOfTrace (createTypings coMixed "A" false false).2
        ++ [ConsoleLine.info (mkWatchSummary "A" 2 0)]
        ++ (consoleOfTrace (createTypings coMixed "B" false false).2
            ++ [ConsoleLine.info (mkWatchSummary "B" 0 1)]) := by
  have hA : runCounters (createTypings coMixed "A" false false).2 = (2, 0) := by decide
  have hB : runCounters (createTypings coMixed "B" false false).2 = (0, 1) := by decide
  exact ⟨hA, hB, by decide, by decide,
    (watch_counters_reset coMixed false false "A" "B" hA hB).2.1⟩

theorem mem_consoleOfTrace_batchTrace (co : Collaborators)
    (cache verbose : Bool) (paths : List String) (l : ConsoleLine)
    (hl : l ∈ consoleOfTrace (batchTrace co cache verbose paths)) :
    ∃ q ∈ paths, l ∈ consoleOfTrace (createTypings co q cache verbose).2 := by
  unfold consoleOfTrace batchTrace at hl
  rcases List.mem_flatMap.mp hl with ⟨ev, hev, hlev⟩
  rcases List.mem_flatten.mp hev with ⟨tr, htr, hevtr⟩
  rcases List.mem_map.mp htr with ⟨q, hq, rfl⟩
  exact ⟨q, hq, List.mem_flatMap.mpr ⟨ev, hevtr, hlev⟩⟩

/-- C3: Batch Accounting prints all per-file output first and then, when
`warnings + errors > 0`, exactly one summary line
`Completed with {w} warnings and {e} errors.` — the appended line is the
only one of summary form, since no per-file line is (third conjunct); when
both counters are zero the transcript contains no summary-form line at
all.  Watch Accounting behaves analogously per event with the line
`{path}: {w} warnings, {e} errors`. -/
theorem summary_emission (co : Collaborators) (cache verbose : Bool)
    (paths : List String) (p : String) :
    ((runCounters (batchTrace co cache verbose paths)).1
        + (runCounters (batchTrace co cache verbose paths)).2 > 0 →
      (createTypingsForFiles co cache verbose paths).1 =
        consoleOfTrace (batchTrace co cache verbose paths)
          ++ [ConsoleLine.info
                (mkBatchSummary (runCounters (batchTrace co cache verbose paths)).1
                  (runCounters (batchTrace co cache verbose paths)).2)]) ∧
    ((runCounters (batchTrace co cache verbose paths)).1
        + (runCounters (batchTrace co cache verbose paths)).2 = 0 →
      ∀ l ∈ (createTypingsForFiles co cache verbose paths).1,
        ¬ IsBatchSummaryLine l) ∧
    (∀ l ∈ consoleOfTrace (batchTrace co cache verbose paths),
      ¬ IsBatchSummaryLine l) ∧
    ((runCounters (createTypings co p cache verbose).2).1
        + (runCounters (createTypings co p cache verbose).2).2 > 0 →
      (createTypingsForFileOnWatch co cache verbose p).1 =
        consoleOfTrace (createTypings co p cache verbose).2
          ++ [ConsoleLine.info
                (mkWatchSummary p (runCounters (createTypings co p cache verbose).2).1
                  (runCounters (createTypings co p cache verbose).2).2)]) ∧
    ((runCounters (createTypings co p cache verbose).2).1
        + (runCounters (createTypings co p cache verbose).2).2 = 0 →
      ∀ l ∈ (createTypingsForFileOnWatch co cache verbose p).1,
        ¬ IsWatchSummaryLine l) ∧
    (∀ l ∈ consoleOfTrace (createTypings co p cache verbose).2,
      ¬ IsWatchSummaryLine l) := by
  have hbodyB : ∀ l ∈ consoleOfTrace (batchTrace co cache verbose paths),
      ¬ IsBatchSummaryLine l := by
    intro l hl
    rcases mem_consoleOfTrace_batchTrace co cache verbose paths l hl with ⟨q, hq, hl'⟩
    exact consoleOfTrace_no_batch_summary co q cache verbose l hl'
  refine ⟨?_, ?_, hbodyB, ?_, ?_, consoleOfTrace_no_watch_summary co p cache verbose⟩
  · intro h
    simp only [createTypingsForFiles]
    rw [if_pos h]
  · intro h l hl
    simp only [createTypingsForFiles] at hl
    rw [if_neg (by omega)] at hl
    rw [List.append_nil] at hl
    exact hbodyB l hl
  · intro h
    simp only [createTypingsForFileOnWatch]
    rw [if_pos h]
  · intro h l hl
    simp only [createTypingsForFileOnWatch] at hl
    rw [if_neg (by omega)] at hl
    rw [List.append_nil] at hl
    exact consoleOfTrace_no_watch_summary co p cache verbose l hl

/-- C3 witness: concrete positive and zero cycles of both accounting
layers under `coMixed`: the batch over `["A", "B"]` (2 warnings, 1 error)
emits its single summary; the batch over `["D"]` (0/0) emits none — the
`Created` line it does print is not of summary form; the watch event `"B"`
emits `B: 0 warnings, 1 errors`; the watch event `"D"` emits none. -/
theorem summary_emission_witness :
    (createTypingsForFiles coMixed false true ["A", "B"]).1 =
      consoleOfTrace (batchTrace coMixed false true ["A", "B"])
        ++ [ConsoleLine.info (mkBatchSummary 2 1)] ∧
    ¬ IsBatchSummaryLine (ConsoleLine.info (mkCreatedLine "D.d.ts")) ∧
    (createTypingsForFileOnWatch coMixed false true "B").1 =
      consoleOfTrace (createTypings coMixed "B" false true).2
        ++ [ConsoleLine.info (mkWatchSummary "B" 0 1)] ∧
    ¬ IsWatchSummaryLine (ConsoleLine.info (mkCreatedLine "D.d.ts")) := by
  have hB := summary_emission coMixed false true ["A", "B"] "B"
  have hD := summary_emission coMixed false true ["D"] "D"
  have h1 := hB.1 (by decide)
  have h2 := hB.2.2.2.1 (by decide)
  refine ⟨?_, ?_, ?_, ?_⟩
  · exact h1
  · exact hD.2.1 (by decide) (ConsoleLine.info (mkCreatedLine "D.d.ts")) (by decide)
  · exact h2
  · exact hD.2.2.2.2.1 (by decide) (ConsoleLine.info (mkCreatedLine "D.d.ts"))
      (by decide)

/-- C5: in one batch accounting cycle the combined number of `handleError`
and `handleWarning` invocations equals the reported `warnings + errors`;
the counters start from `(0, 0)`, grow monotonically along the cycle, are
insensitive to the interleaving (any permutation) of the concurrently
dispatched per-file callbacks, and are read for the summary only after the
whole per-file transcript — the summary follows every per-file line. -/
theorem batch_counter_accounting (co : Collaborators) (cache verbose : Bool)
    (paths : List String) (hne : paths ≠ []) :
    (batchTrace co cache verbose paths).countP Event.isErrorCall
        + (batchTrace co cache verbose paths).countP Event.isWarningCall
      = (runCounters (batchTrace co cache verbose paths)).1
        + (runCounters (batchTrace co cache verbose paths)).2 ∧
    runCounters ((batchTrace co cache verbose paths).take 0) = (0, 0) ∧
    (∀ i j, i ≤ j →
      (runCounters ((batchTrace co cache verbose paths).take i)).1
          ≤ (runCounters ((batchTrace co cache verbose paths).take j)).1 ∧
      (runCounters ((batchTrace co cache verbose paths).take i)).2
          ≤ (runCounters ((batchTrace co cache verbose paths).take j)).2) ∧
    (∀ tr', List.Perm tr' (batchTrace co cache verbose paths) →
      runCounters tr' = runCounters (batchTrace co cache verbose paths)) ∧
    (createTypingsForFiles co cache verbose paths).1 =
      consoleOfTrace (batchTrace co cache verbose paths)
        ++ (if (runCounters (batchTrace co cache verbose paths)).1
                + (runCounters (batchTrace co cache verbose paths)).2 > 0
            then [ConsoleLine.info
                    (mkBatchSummary
                      (runCounters (batchTrace co cache verbose paths)).1
                      (runCounters (batchTrace co cache verbose paths)).2)]
            else []) := by
  refine ⟨?_, rfl, ?_, ?_, rfl⟩
  · rw [runCounters_eq_counts]
    omega
  · intro i j hij
    have hsub : ((batchTrace co cache verbose paths).take i).Sublist
        ((batchTrace co cache verbose paths).take j) := by
      have : (batchTrace co cache verbose paths).take i
          = ((batchTrace co cache verbose paths).take j).take i := by
        rw [List.take_take, Nat.min_eq_left hij]
      rw [this]
      exact List.take_sublist i _
    rw [runCounters_eq_counts, runCounters_eq_counts]
    exact ⟨List.Sublist.countP_le _ hsub, List.Sublist.countP_le _ hsub⟩
  · intro tr2 hperm
    rw [runCounters_eq_counts, runCounters_eq_counts,
      hperm.countP_eq, hperm.countP_eq]

/-- C5 witness: the batch `["A", "B"]` under `coMixed` (2 warnings from A,
1 error from B): callback count equals the reported 2 + 1, the counters
grow from the one-event prefix to the full cycle, and the reversed
interleaving of the callbacks yields the same final counters. -/
theorem batch_counter_accounting_witness :
    (["A", "B"] : List String) ≠ [] ∧
    (batchTrace coMixed false false ["A", "B"]).countP Event.isErrorCall
        + (batchTrace coMixed false false ["A", "B"]).countP Event.isWarningCall
      = (runCounters (batchTrace coMixed false false ["A", "B"])).1
        + (runCounters (batchTrace coMixed false false ["A", "B"])).2 ∧
    runCounters ((batchTrace coMixed false false ["A", "B"]).take 0) = (0, 0) ∧
    ((runCounters ((batchTrace coMixed false false ["A", "B"]).take 1)).1
        ≤ (runCounters (batchTrace coMixed false false ["A", "B"])).1 ∧
      (runCounters ((batchTrace coMixed false false ["A", "B"]).take 1)).2
        ≤ (runCounters (batchTrace coMixed false false ["A", "B"])).2) ∧
    runCounters ((batchTrace coMixed false false ["A", "B"]).reverse)
      = runCounters (batchTrace coMixed false false ["A", "B"]) := by
  have hne : (["A", "B"] : List String) ≠ [] := by decide
  have h := batch_counter_accounting coMixed false false ["A", "B"] hne
  have hlen : (batchTrace coMixed false false ["A", "B"]).take
      (batchTrace coMixed false false ["A", "B"]).length
      = batchTrace coMixed false false ["A", "B"] := List.take_length _
  refine ⟨hne, h.1, h.2.1, ?_, h.2.2.2.1 _ (List.reverse_perm _)⟩
  have hm := h.2.2.1 1 (batchTrace coMixed false false ["A", "B"]).length
    (by decide)
  rw [hlen] at hm
  exact hm

/-- Any `createCall` event recorded by a pipeline invocation carries
exactly the cache flag that invocation was given. -/
theorem createCall_flag (co : Collaborators) (pathName : String)
    (cache verbose b : Bool)
    (h : Event.createCall b ∈ (createTypings co pathName cache verbose).2) :
    b = cache := by
  rcases createTypings_trace_shape co pathName cache verbose _ h with
    heq | ⟨o, heq⟩ | ⟨o, heq⟩ | ⟨r, heq⟩ | ⟨m, heq⟩
  · exact Event.createCall.inj heq
  · exact Event.noConfusion heq
  · exact Event.noConfusion heq
  · exact Event.noConfusion heq
  · exact Event.noConfusion heq

/-- C8: the batch branch of the Mode Selector.  A glob error is reported
and Batch Accounting is never invoked (no trace); a missing or empty path
list produces exactly the single zero-file notice and no invocation; a
non-empty list produces the count line followed by Batch Accounting's
transcript, invoked over exactly the discovered paths. -/
theorem mode_selector_batch (co : Collaborators) (cache verbose : Bool) :
    (∀ err, globCallback co cache verbose (.failed err)
          = ([ConsoleLine.error err], none) ∧
        globCallbackTrace co cache verbose (.failed err) = []) ∧
    (globCallback co cache verbose (.found none)
        = ([ConsoleLine.info zeroFilesNotice], none) ∧
      globCallbackTrace co cache verbose (.found none) = []) ∧
    (globCallback co cache verbose (.found (some []))
        = ([ConsoleLine.info zeroFilesNotice], none) ∧
      globCallbackTrace co cache verbose (.found (some [])) = []) ∧
    ([ConsoleLine.info zeroFilesNotice].count
        (ConsoleLine.info zeroFilesNotice) = 1) ∧
    (∀ ps : List String, ps ≠ [] →
      globCallback co cache verbose (.found (some ps))
        = (ConsoleLine.info (mkCountLine ps.length)
            :: (createTypingsForFiles co cache verbose ps).1, some ps)) := by
  refine ⟨fun err => ⟨rfl, rfl⟩, ⟨rfl, rfl⟩, ⟨rfl, rfl⟩, rfl, ?_⟩
  intro ps hps
  have hlen : ps.length ≠ 0 := fun hc => hps (List.length_eq_zero.mp hc)
  simp [globCallback, hlen]

/-- C8 witness: a concrete glob error, the empty and missing lists, and
the one-file list `["A"]`. -/
theorem mode_selector_batch_witness :
    globCallback coMixed false true (.failed "glob boom")
        = ([ConsoleLine.error "glob boom"], none) ∧
    globCallback coMixed false true (.found (some []))
        = ([ConsoleLine.info zeroFilesNotice], none) ∧
    (["A"] : List String) ≠ [] ∧
    globCallback coMixed false true (.found (some ["A"]))
      = (ConsoleLine.info (mkCountLine 1)
          :: (createTypingsForFiles coMixed false true ["A"]).1, some ["A"]) := by
  have h := mode_selector_batch coMixed false true
  have hne : (["A"] : List String) ≠ [] := by decide
  exact ⟨(h.1 "glob boom").1, h.2.2.1.1, hne, h.2.2.2.2 ["A"] hne⟩

/-- C9: the cache flag handed to every Generation Engine invocation of a
Mode Selector run is the single boolean `cache = watch` computed once in
`main`: any `createCall` event anywhere in the run's trace — batch branch
or watch branch — carries `true` exactly when the watch flag is set. -/
theorem cacheFlag_policy (co : Collaborators) (watch verbose : Bool)
    (globOut : GlobOutcome) (watchEvents : List String) (b : Bool)
    (hmem : Event.createCall b ∈ mainRun co watch verbose globOut watchEvents) :
    b = watch := by
  unfold mainRun at hmem
  cases watch with
  | true =>
    simp only [if_pos] at hmem
    unfold watchRun at hmem
    rcases List.mem_flatten.mp hmem with ⟨tr, htr, hevtr⟩
    rcases List.mem_map.mp htr with ⟨q, hq, rfl⟩
    have hq' : Event.createCall b ∈ (createTypings co q true verbose).2 := by
      simpa [createTypingsForFileOnWatch] using hevtr
    exact createCall_flag co q true verbose b hq'
  | false =>
    rw [if_neg (by simp)] at hmem
    cases globOut with
    | failed err => simp [globCallbackTrace] at hmem
    | found ps? =>
      cases ps? with
      | none => simp [globCallbackTrace] at hmem
      | some ps =>
        simp only [globCallbackTrace] at hmem
        by_cases hlen : ps.length = 0
        · rw [if_pos hlen] at hmem
          simp at hmem
        · rw [if_neg hlen] at hmem
          unfold batchTrace at hmem
          rcases List.mem_flatten.mp hmem with ⟨tr, htr, hevtr⟩
          rcases List.mem_map.mp htr with ⟨q, hq, rfl⟩
          exact createCall_flag co q false verbose b hevtr

/-- C9 witness: a watch-mode run over event `"A"` records a generation
call flagged `true`; a batch-mode run over `["A"]` records one flagged
`false`. -/
theorem cacheFlag_policy_witness :
    (Event.createCall true ∈ mainRun coMixed true false (.found none) ["A"] ∧
      true = true) ∧
    (Event.createCall false
        ∈ mainRun coMixed false false (.found (some ["A"])) [] ∧
      false = false) := by
  have h1 : Event.createCall true
      ∈ mainRun coMixed true false (.found none) ["A"] := by decide
  have h2 : Event.createCall false
      ∈ mainRun coMixed false false (.found (some ["A"])) [] := by decide
  exact ⟨⟨h1, cacheFlag_policy coMixed true false (.found none) ["A"] true h1⟩,
    ⟨h2, cacheFlag_policy coMixed false false (.found (some ["A"])) [] false h2⟩⟩

end SassCli
